import Mathlib

set_option autoImplicit false

/-!
Shallow embedding of the coordination plane of the unrealRenderFarm
repository (src/requestManager.py and src/util/renderRequest.py), together
with theorems settling the frozen claims about the job state machine, the
HTTP endpoints, the round-robin assignment policy and the stuck-job
watchdog.

Conventions of the embedding:
* Python strings, ints and lists of strings become `String`, `Int`,
  `List String`.
* Python truthiness-based defaulting (`a or b`) becomes `strOr`, `intOr`,
  `listOr`.
* A Python dict read with `d.get(k)` becomes a structure of `Option`
  fields; `none` models both an absent key and a JSON `null` value (both
  give `None` in the source).
* Environment-produced values (`uuid.uuid4()`, `socket.gethostname()`,
  `datetime.now()`) are passed explicitly through an `Env` record.
* The stored job addressed by a uid is modelled as an `Option RenderRequest`
  (`none` means the uid is absent from the database); each HTTP handler
  becomes a function from the stored job and the request body to the
  response and the job as stored after the request.
-/

/-- Python `a or b` on strings: `a` when non-empty (truthy), else `b`. -/
def strOr (a b : String) : String := if a = "" then b else a

/-- Python `a or b` on integers: `a` when non-zero (truthy), else `b`. -/
def intOr (a b : Int) : Int := if a = 0 then b else a

/-- Python `a or b` on lists: `a` when non-empty (truthy), else `b`. -/
def listOr (a b : List String) : List String := if a = [] then b else a

/-- Python `d.get(k) or dflt` for a string-valued key: an absent key or a
`None` value gives `dflt`, a present value goes through `or`. -/
def pyGetStr (o : Option String) (dflt : String) : String :=
  match o with
  | none => dflt
  | some s => strOr s dflt

/-- Python `d.get(k) or dflt` for an int-valued key. -/
def pyGetInt (o : Option Int) (dflt : Int) : Int :=
  match o with
  | none => dflt
  | some n => intOr n dflt

/-- Python `d.get(k) or dflt` for a list-valued key. -/
def pyGetList (o : Option (List String)) (dflt : List String) : List String :=
  match o with
  | none => dflt
  | some l => listOr l dflt

/-- The eight status string constants of `RenderStatus` in
src/util/renderRequest.py. -/
def RenderStatus.unassigned : String := "un-assigned"

def RenderStatus.ready_to_start : String := "ready to start"

def RenderStatus.in_progress : String := "in progress"

def RenderStatus.finished : String := "finished"

def RenderStatus.errored : String := "errored"

def RenderStatus.failed : String := "failed"

def RenderStatus.cancelled : String := "cancelled"

def RenderStatus.paused : String := "paused"

/-- The list of the eight states, in source order. -/
def RenderStatus.allStatuses : List String :=
  [RenderStatus.unassigned, RenderStatus.ready_to_start,
   RenderStatus.in_progress, RenderStatus.finished, RenderStatus.errored,
   RenderStatus.failed, RenderStatus.cancelled, RenderStatus.paused]

/-- `MAX_RETRIES` constant in src/util/renderRequest.py. -/
def MAX_RETRIES : Int := 3

/-- Values produced by the runtime environment inside
`RenderRequest.__init__`: `str(uuid.uuid4())[:8]`, `socket.gethostname()`
and `datetime.now().strftime(...)`. -/
structure Env where
  uuid : String
  hostname : String
  now : String
deriving Repr, DecidableEq

/-- The `RenderRequest` object: one attribute per instance attribute set
in `RenderRequest.__init__` (src/util/renderRequest.py), in source order. -/
structure RenderRequest where
  uid : String
  name : String
  owner : String
  worker : String
  time_created : String
  priority : Int
  category : String
  tags : List String
  status : String
  umap_path : String
  useq_path : String
  uconfig_path : String
  output_path : String
  width : Int
  height : Int
  frame_rate : Int
  format : String
  start_frame : Int
  end_frame : Int
  length : Int
  time_estimate : String
  progress : Int
  warmup_current : Int
  warmup_total : Int
  error_message : String
  retry_count : Int
  started_at : String
  completed_at : String
deriving Repr, DecidableEq

/-- The keyword arguments of `RenderRequest.__init__`, with the Python
default values.  `tags` is `Option` because its Python default is `None`
and the constructor distinguishes `None` from a provided list. -/
structure InitArgs where
  uid : String := ""
  name : String := ""
  owner : String := ""
  worker : String := ""
  time_created : String := ""
  priority : Int := 0
  category : String := ""
  tags : Option (List String) := none
  status : String := ""
  umap_path : String := ""
  useq_path : String := ""
  uconfig_path : String := ""
  output_path : String := ""
  width : Int := 0
  height : Int := 0
  frame_rate : Int := 0
  format : String := ""
  start_frame : Int := 0
  end_frame : Int := 0
  time_estimate : String := ""
  progress : Int := 0
  warmup_current : Int := 0
  warmup_total : Int := 0
  error_message : String := ""
  retry_count : Int := 0
  started_at : String := ""
  completed_at : String := ""
deriving Repr, DecidableEq

/-- `RenderRequest.__init__`: applies the truthiness-based defaults and
computes `length = end_frame - start_frame`. -/
def RenderRequest.init (env : Env) (a : InitArgs) : RenderRequest :=
  { uid := strOr a.uid env.uuid
    name := a.name
    owner := strOr a.owner env.hostname
    worker := a.worker
    time_created := strOr a.time_created env.now
    priority := intOr a.priority 0
    category := a.category
    tags := a.tags.getD []
    status := strOr a.status RenderStatus.unassigned
    umap_path := a.umap_path
    useq_path := a.useq_path
    uconfig_path := a.uconfig_path
    output_path := a.output_path
    width := intOr a.width 1280
    height := intOr a.height 720
    frame_rate := intOr a.frame_rate 30
    format := strOr a.format "JPG"
    start_frame := intOr a.start_frame 0
    end_frame := intOr a.end_frame 0
    length := intOr a.end_frame 0 - intOr a.start_frame 0
    time_estimate := a.time_estimate
    progress := a.progress
    warmup_current := a.warmup_current
    warmup_total := a.warmup_total
    error_message := a.error_message
    retry_count := a.retry_count
    started_at := a.started_at
    completed_at := a.completed_at }

/-- A job dictionary (JSON object): one optional entry per key that
`from_dict` reads, plus `length`, which `to_dict` emits and `from_dict`
ignores.  `none` models an absent key or a `null` value. -/
structure JobDict where
  uid : Option String := none
  name : Option String := none
  owner : Option String := none
  worker : Option String := none
  time_created : Option String := none
  priority : Option Int := none
  category : Option String := none
  tags : Option (List String) := none
  status : Option String := none
  umap_path : Option String := none
  useq_path : Option String := none
  uconfig_path : Option String := none
  output_path : Option String := none
  width : Option Int := none
  height : Option Int := none
  frame_rate : Option Int := none
  format : Option String := none
  start_frame : Option Int := none
  end_frame : Option Int := none
  length : Option Int := none
  time_estimate : Option String := none
  progress : Option Int := none
  warmup_current : Option Int := none
  warmup_total : Option Int := none
  error_message : Option String := none
  retry_count : Option Int := none
  started_at : Option String := none
  completed_at : Option String := none
deriving Repr, DecidableEq

/-- `RenderRequest.from_dict`: reads each key with `d.get(k) or dflt` and
hands the values to the constructor (`tags` is always passed as a list). -/
def RenderRequest.from_dict (env : Env) (d : JobDict) : RenderRequest :=
  RenderRequest.init env
    { uid := pyGetStr d.uid ""
      name := pyGetStr d.name ""
      owner := pyGetStr d.owner ""
      worker := pyGetStr d.worker ""
      time_created := pyGetStr d.time_created ""
      priority := pyGetInt d.priority 0
      category := pyGetStr d.category ""
      tags := some (pyGetList d.tags [])
      status := pyGetStr d.status ""
      umap_path := pyGetStr d.umap_path ""
      useq_path := pyGetStr d.useq_path ""
      uconfig_path := pyGetStr d.uconfig_path ""
      output_path := pyGetStr d.output_path ""
      width := pyGetInt d.width 0
      height := pyGetInt d.height 0
      frame_rate := pyGetInt d.frame_rate 0
      format := pyGetStr d.format ""
      start_frame := pyGetInt d.start_frame 0
      end_frame := pyGetInt d.end_frame 0
      time_estimate := pyGetStr d.time_estimate ""
      progress := pyGetInt d.progress 0
      warmup_current := pyGetInt d.warmup_current 0
      warmup_total := pyGetInt d.warmup_total 0
      error_message := pyGetStr d.error_message ""
      retry_count := pyGetInt d.retry_count 0
      started_at := pyGetStr d.started_at ""
      completed_at := pyGetStr d.completed_at "" }

/-- `RenderRequest.to_dict`: `self.__dict__`, every attribute present. -/
def RenderRequest.to_dict (r : RenderRequest) : JobDict :=
  { uid := some r.uid
    name := some r.name
    owner := some r.owner
    worker := some r.worker
    time_created := some r.time_created
    priority := some r.priority
    category := some r.category
    tags := some r.tags
    status := some r.status
    umap_path := some r.umap_path
    useq_path := some r.useq_path
    uconfig_path := some r.uconfig_path
    output_path := some r.output_path
    width := some r.width
    height := some r.height
    frame_rate := some r.frame_rate
    format := some r.format
    start_frame := some r.start_frame
    end_frame := some r.end_frame
    length := some r.length
    time_estimate := some r.time_estimate
    progress := some r.progress
    warmup_current := some r.warmup_current
    warmup_total := some r.warmup_total
    error_message := some r.error_message
    retry_count := some r.retry_count
    started_at := some r.started_at
    completed_at := some r.completed_at }

/-- The keyword arguments of `RenderRequest.update` (all default `None`). -/
structure UpdateArgs where
  progress : Option Int := none
  status : Option String := none
  time_estimate : Option String := none
  warmup_current : Option Int := none
  warmup_total : Option Int := none
  error_message : Option String := none
  started_at : Option String := none
  completed_at : Option String := none
deriving Repr, DecidableEq

/-- `RenderRequest.update`: each field is overwritten only when the
argument is not `None`; the object is then written back to the database. -/
def RenderRequest.update (r : RenderRequest) (a : UpdateArgs) : RenderRequest :=
  { r with
    progress := a.progress.getD r.progress
    status := a.status.getD r.status
    time_estimate := a.time_estimate.getD r.time_estimate
    warmup_current := a.warmup_current.getD r.warmup_current
    warmup_total := a.warmup_total.getD r.warmup_total
    error_message := a.error_message.getD r.error_message
    started_at := a.started_at.getD r.started_at
    completed_at := a.completed_at.getD r.completed_at }

/-- `RenderRequest.assign`: sets the worker and writes back. -/
def RenderRequest.assign (r : RenderRequest) (w : String) : RenderRequest :=
  { r with worker := w }

/-- The `VALID_TRANSITIONS` table of src/requestManager.py, as the function
`status ↦ VALID_TRANSITIONS.get(status, [])` (an unknown status maps to the
empty list, matching the `.get` default used at every call site). -/
def VALID_TRANSITIONS (s : String) : List String :=
  if s = RenderStatus.unassigned then
    [RenderStatus.ready_to_start, RenderStatus.cancelled]
  else if s = RenderStatus.ready_to_start then
    [RenderStatus.in_progress, RenderStatus.cancelled, RenderStatus.unassigned]
  else if s = RenderStatus.in_progress then
    [RenderStatus.finished, RenderStatus.errored, RenderStatus.cancelled,
     RenderStatus.ready_to_start]
  else if s = RenderStatus.finished then []
  else if s = RenderStatus.errored then
    [RenderStatus.ready_to_start, RenderStatus.failed]
  else if s = RenderStatus.failed then []
  else if s = RenderStatus.cancelled then [RenderStatus.ready_to_start]
  else if s = RenderStatus.paused then
    [RenderStatus.ready_to_start, RenderStatus.cancelled]
  else []

/-- `is_valid_transition` of src/requestManager.py: reflexivity, else
membership in the row of the table. -/
def is_valid_transition (current_status new_status : String) : Bool :=
  if current_status = new_status then true
  else (VALID_TRANSITIONS current_status).contains new_status

/-- The request body of `PUT /api/put/<uid>`, restricted to the keys the
handler reads with `data.get`; `none` is an absent key or a `null` value.
The handler converts a provided progress with `int(float(p))`, which is the
identity on the integral progress values the system exchanges, so the body
carries the converted integer directly. -/
structure PutBody where
  progress : Option Int := none
  time_estimate : Option String := none
  status : Option String := none
  warmup_current : Option Int := none
  warmup_total : Option Int := none
  error_message : Option String := none
  started_at : Option String := none
  completed_at : Option String := none
deriving Repr, DecidableEq

/-- The response of `PUT /api/put/<uid>`: the updated job (HTTP 200), the
invalid-transition error body (HTTP 400) carrying `current_status`,
`requested_status` and `allowed_transitions`, or job-not-found (404). -/
inductive PutResult where
  | ok (job : RenderRequest)
  | invalidTransition (current_status requested_status : String)
      (allowed_transitions : List String)
  | notFound
deriving Repr, DecidableEq

/-- The `UpdateArgs` that `update_request` passes to `rr.update` from a
body: exactly the eight `data.get` reads of the handler. -/
def putUpdateArgs (body : PutBody) : UpdateArgs :=
  { progress := body.progress
    status := body.status
    time_estimate := body.time_estimate
    warmup_current := body.warmup_current
    warmup_total := body.warmup_total
    error_message := body.error_message
    started_at := body.started_at
    completed_at := body.completed_at }

/-- `update_request` (handler of `PUT /api/put/<uid>`): 404 on a missing
job; reject with 400 when the body carries a truthy status that differs
from the current one and is not a valid transition; otherwise apply
`rr.update` with the provided fields.  Returns the response and the job as
stored after the request. -/
def update_request (stored : Option RenderRequest) (body : PutBody) :
    PutResult × Option RenderRequest :=
  match stored with
  | none => (PutResult.notFound, none)
  | some rr =>
    match body.status with
    | some s =>
      if s ≠ "" ∧ s ≠ rr.status ∧ is_valid_transition rr.status s = false then
        (PutResult.invalidTransition rr.status s (VALID_TRANSITIONS rr.status),
         some rr)
      else
        let rr2 := rr.update (putUpdateArgs body)
        (PutResult.ok rr2, some rr2)
    | none =>
      let rr2 := rr.update (putUpdateArgs body)
      (PutResult.ok rr2, some rr2)

/-- The response of `POST /api/cancel/<uid>`. -/
inductive CancelResult where
  | ok (job : RenderRequest)
  | notFound
deriving Repr, DecidableEq

/-- `cancel_request` (handler of `POST /api/cancel/<uid>`): 404 on a
missing job, else `rr.update(status=cancelled)` unconditionally. -/
def cancel_request (stored : Option RenderRequest) :
    CancelResult × Option RenderRequest :=
  match stored with
  | none => (CancelResult.notFound, none)
  | some rr =>
    let rr2 := rr.update { status := some RenderStatus.cancelled }
    (CancelResult.ok rr2, some rr2)

/-- The response of `POST /api/retry/<uid>`: 200 with the job, 400 for a
non-retryable status, 400 with a max-retries message, or 404. -/
inductive RetryResult where
  | ok (job : RenderRequest)
  | notRetryable
  | maxRetriesExceeded (retry_count : Int)
  | notFound
deriving Repr, DecidableEq

/-- `retry_request` (handler of `POST /api/retry/<uid>`). -/
def retry_request (stored : Option RenderRequest) :
    RetryResult × Option RenderRequest :=
  match stored with
  | none => (RetryResult.notFound, none)
  | some rr =>
    if rr.status ≠ RenderStatus.errored ∧ rr.status ≠ RenderStatus.cancelled then
      (RetryResult.notRetryable, some rr)
    else
      let new_retry_count := intOr rr.retry_count 0 + 1
      if new_retry_count > MAX_RETRIES then
        let rr2 := rr.update { status := some RenderStatus.failed }
        (RetryResult.maxRetriesExceeded new_retry_count, some rr2)
      else
        let rr1 := { rr with
          retry_count := new_retry_count, error_message := "", progress := 0 }
        let rr2 := rr1.update { status := some RenderStatus.ready_to_start }
        (RetryResult.ok rr2, some rr2)

/-- A worker snapshot as produced by `get_workers_status`: the name, the
reported status string, and the derived `online` flag
(`now - last_seen < WORKER_TIMEOUT`).  The registry is keyed by `name`
(heartbeats upsert on `name`), so names are unique in practice. -/
structure WorkerInfo where
  name : String
  status : String
  online : Bool
deriving Repr, DecidableEq

/-- The round-robin core of `get_available_worker`, applied to the list
`available` of candidate names: if the cursor is still in the candidate
list pick the entry after it (cyclically), else pick the first.  Returns
the selection and the cursor afterwards (the cursor moves only when a
worker is selected). -/
def round_robin_pick (last_assigned : Option String)
    (available : List String) : Option String × Option String :=
  if available.isEmpty then (none, last_assigned)
  else
    let next_idx :=
      match last_assigned with
      | some la =>
        if available.contains la then (available.indexOf la + 1) % available.length
        else 0
      | none => 0
    let chosen := available.getD next_idx ""
    (some chosen, some chosen)

/-- `get_available_worker`: filter the snapshot to online-and-idle names,
then round-robin from the process-wide cursor `LAST_ASSIGNED_WORKER`. -/
def get_available_worker (last_assigned : Option String)
    (workers : List WorkerInfo) : Option String × Option String :=
  round_robin_pick last_assigned
    ((workers.filter (fun w => w.online ∧ w.status = "idle")).map (·.name))

/-- `assign_request`: set the worker and transition to `ready_to_start`. -/
def assign_request (rr : RenderRequest) (worker : String) : RenderRequest :=
  (rr.assign worker).update { status := some RenderStatus.ready_to_start }

/-- `new_request_trigger`: nothing when the job already has a worker; else
pick an available worker (moving the round-robin cursor) and assign, or
leave the job untouched when none is available.  Returns the job and the
cursor afterwards. -/
def new_request_trigger (workers : List WorkerInfo)
    (last_assigned : Option String) (rr : RenderRequest) :
    RenderRequest × Option String :=
  if rr.worker ≠ "" then (rr, last_assigned)
  else
    match get_available_worker last_assigned workers with
    | (none, c) => (rr, c)
    | (some w, c) => (assign_request rr w, c)

/-- `create_request` (handler of `POST /api/post`): build the job from the
body, persist it, then run `new_request_trigger`.  Returns the job as
stored and the cursor afterwards. -/
def create_request (env : Env) (workers : List WorkerInfo)
    (last_assigned : Option String) (d : JobDict) :
    RenderRequest × Option String :=
  new_request_trigger workers last_assigned (RenderRequest.from_dict env d)

/-- The stuck decision of `check_stuck_jobs` for one `in_progress` job:
`some reason` when the job is stuck.  `elapsedOf` models
`(now - datetime.fromisoformat(started_at)).total_seconds()`, with `none`
for an unparseable timestamp (the source swallows the exception). -/
def jobStuckReason (workers : List WorkerInfo)
    (elapsedOf : String → Option Int) (jobTimeout : Int)
    (rr : RenderRequest) : Option String :=
  if rr.worker ≠ "" then
    match workers.find? (fun w => w.name = rr.worker) with
    | none => some ("worker " ++ rr.worker ++ " not registered")
    | some w =>
      if w.online = false then some ("worker " ++ rr.worker ++ " is offline")
      else if rr.started_at ≠ "" then
        match elapsedOf rr.started_at with
        | some e =>
          if e > jobTimeout then
            some ("job exceeded " ++ toString jobTimeout ++ "s timeout")
          else none
        | none => none
      else none
  else some "no worker assigned"

/-- The reset a stuck job undergoes: clear the worker, then
`update(status=ready_to_start, error_message='Reset: ' + reason)`. -/
def resetStuckJob (rr : RenderRequest) (reason : String) : RenderRequest :=
  RenderRequest.update { rr with worker := "" }
    { status := some RenderStatus.ready_to_start
      error_message := some ("Reset: " ++ reason) }

/-- `check_stuck_jobs`: scan every job; a non-`in_progress` job is skipped;
a stuck `in_progress` job is reset and fed back through
`new_request_trigger` (which may re-assign it and move the round-robin
cursor).  Returns the jobs as stored after the pass and the cursor. -/
def check_stuck_jobs (workers : List WorkerInfo)
    (elapsedOf : String → Option Int) (jobTimeout : Int) :
    List RenderRequest → Option String → List RenderRequest × Option String
  | [], c => ([], c)
  | rr :: rest, c =>
    if rr.status ≠ RenderStatus.in_progress then
      let out := check_stuck_jobs workers elapsedOf jobTimeout rest c
      (rr :: out.1, out.2)
    else
      match jobStuckReason workers elapsedOf jobTimeout rr with
      | none =>
        let out := check_stuck_jobs workers elapsedOf jobTimeout rest c
        (rr :: out.1, out.2)
      | some reason =>
        let step := new_request_trigger workers c (resetStuckJob rr reason)
        let out := check_stuck_jobs workers elapsedOf jobTimeout rest step.2
        (step.1 :: out.1, out.2)

/-! ### Helper lemmas about Python truthiness defaulting -/

theorem strOr_empty_right (s : String) : strOr s "" = s := by
  by_cases h : s = "" <;> simp [strOr, h]

theorem intOr_zero_right (n : Int) : intOr n 0 = n := by
  by_cases h : n = 0 <;> simp [intOr, h]

theorem listOr_nil_right (l : List String) : listOr l [] = l := by
  by_cases h : l = [] <;> simp [listOr, h]

theorem strOr_strOr (s d : String) : strOr (strOr s d) d = strOr s d := by
  by_cases hs : s = "" <;> by_cases hd : d = "" <;> simp [strOr, hs, hd]

theorem intOr_intOr (n d : Int) : intOr (intOr n d) d = intOr n d := by
  by_cases hn : n = 0 <;> by_cases hd : d = 0 <;> simp [intOr, hn, hd]

theorem strOr_absorb (s d d2 : String) (hd : d ≠ "") :
    strOr (strOr s d) d2 = strOr s d := by
  by_cases hs : s = "" <;> simp [strOr, hs, hd]

theorem intOr_absorb (n d d2 : Int) (hd : d ≠ 0) :
    intOr (intOr n d) d2 = intOr n d := by
  by_cases hn : n = 0 <;> simp [intOr, hn, hd]

/-! ### C6: to_dict / from_dict round-trip -/

/-- C6.  For every job built by the `RenderRequest` constructor (under the
environmental facts that `str(uuid.uuid4())[:8]`, `socket.gethostname()`
and `datetime.now().strftime(...)` are non-empty strings), serialising it
with `to_dict` and re-hydrating the dictionary with `from_dict` — in any
environment — yields a job whose every field equals the original. -/
theorem from_dict_to_dict_roundtrip (env env2 : Env) (a : InitArgs)
    (hu : env.uuid ≠ "") (hh : env.hostname ≠ "") (hn : env.now ≠ "") :
    RenderRequest.from_dict env2
      (RenderRequest.to_dict (RenderRequest.init env a)) =
    RenderRequest.init env a := by
  simp only [RenderRequest.from_dict, RenderRequest.to_dict,
    RenderRequest.init, pyGetStr, pyGetInt, pyGetList,
    strOr_empty_right, intOr_zero_right, listOr_nil_right, Option.getD_some,
    strOr_strOr, intOr_intOr]
  rw [strOr_absorb _ _ _ hu, strOr_absorb _ _ _ hh, strOr_absorb _ _ _ hn]

/-- Concrete instance of the round-trip law. -/
theorem from_dict_to_dict_roundtrip_witness :
    RenderRequest.from_dict ⟨"ffffffff", "other-host", "02/02/2026, 10:00:00"⟩
      (RenderRequest.to_dict
        (RenderRequest.init ⟨"abcd1234", "render-host", "01/01/2026, 00:00:00"⟩
          { name := "shot010", width := 1920, progress := 0 })) =
    RenderRequest.init ⟨"abcd1234", "render-host", "01/01/2026, 00:00:00"⟩
      { name := "shot010", width := 1920, progress := 0 } :=
  from_dict_to_dict_roundtrip _ _ _ (by decide) (by decide) (by decide)

/-! ### Concrete job fixtures for witnesses and counterexamples -/

/-- A fully explicit concrete job in the `errored` state. -/
def jobErrored : RenderRequest :=
  { uid := "job00001", name := "shot010", owner := "submitter-host",
    worker := "", time_created := "01/01/2026, 00:00:00", priority := 0,
    category := "", tags := [], status := RenderStatus.errored,
    umap_path := "/Game/Maps/X", useq_path := "/Game/Seqs/X",
    uconfig_path := "/Game/Presets/X", output_path := "", width := 1280,
    height := 720, frame_rate := 30, format := "JPG", start_frame := 0,
    end_frame := 0, length := 0, time_estimate := "", progress := 37,
    warmup_current := 0, warmup_total := 0, error_message := "boom",
    retry_count := 0, started_at := "", completed_at := "" }

/-- A concrete job in the terminal `finished` state. -/
def jobFinished : RenderRequest :=
  { jobErrored with
    status := RenderStatus.finished
    progress := 100
    error_message := "" }

/-- A concrete job in the `unassigned` state. -/
def jobUnassigned : RenderRequest :=
  { jobErrored with
    status := RenderStatus.unassigned
    progress := 0
    error_message := "" }

/-- A concrete errored job that has already used all its retries. -/
def jobErroredMaxed : RenderRequest :=
  { jobErrored with retry_count := MAX_RETRIES }

/-! ### C3: retry endpoint behaviour -/

/-- C3.  `POST /api/retry/<uid>` on an existing job: a status other than
`errored`/`cancelled` is rejected with 400 and no change; otherwise, with
`n = retry_count + 1`, either `n > MAX_RETRIES` and the stored job becomes
`failed` while the response is the 400 max-retries error, or the stored
job ends with `retry_count = n`, `error_message = ""`, `progress = 0` and
`status = ready_to_start`. -/
theorem retry_request_behaviour (rr : RenderRequest) :
    (¬ (rr.status = RenderStatus.errored ∨ rr.status = RenderStatus.cancelled) →
      retry_request (some rr) = (RetryResult.notRetryable, some rr)) ∧
    ((rr.status = RenderStatus.errored ∨ rr.status = RenderStatus.cancelled) →
      (rr.retry_count + 1 > MAX_RETRIES →
        retry_request (some rr) =
          (RetryResult.maxRetriesExceeded (rr.retry_count + 1),
           some { rr with status := RenderStatus.failed })) ∧
      (¬ rr.retry_count + 1 > MAX_RETRIES →
        retry_request (some rr) =
          (RetryResult.ok
            { rr with
              retry_count := rr.retry_count + 1
              error_message := ""
              progress := 0
              status := RenderStatus.ready_to_start },
           some { rr with
             retry_count := rr.retry_count + 1
             error_message := ""
             progress := 0
             status := RenderStatus.ready_to_start }))) := by
  constructor
  · intro h
    rw [not_or] at h
    simp [retry_request, h.1, h.2]
  · intro h
    have hnr : ¬ (rr.status ≠ RenderStatus.errored ∧
        rr.status ≠ RenderStatus.cancelled) := by
      rcases h with h | h <;> simp [h]
    constructor
    · intro hmax
      simp [retry_request, hnr, intOr_zero_right, hmax, RenderRequest.update]
    · intro hmax
      simp [retry_request, hnr, intOr_zero_right, hmax, RenderRequest.update]

/-- Concrete instance: retrying a fresh errored job stores it back as
`ready_to_start` with `retry_count = 1` and a cleared error. -/
theorem retry_request_behaviour_witness :
    retry_request (some jobErrored) =
      (RetryResult.ok
        { jobErrored with
          retry_count := jobErrored.retry_count + 1
          error_message := ""
          progress := 0
          status := RenderStatus.ready_to_start },
       some { jobErrored with
         retry_count := jobErrored.retry_count + 1
         error_message := ""
         progress := 0
         status := RenderStatus.ready_to_start }) :=
  ((retry_request_behaviour jobErrored).2 (Or.inl rfl)).2 (by decide)

/-! ### C1: state-machine enforcement in PUT -/

theorem is_valid_transition_of_ne (c s : String) (hne : s ≠ c)
    (h : is_valid_transition c s = true) :
    (VALID_TRANSITIONS c).contains s = true := by
  unfold is_valid_transition at h
  rw [if_neg (fun e => hne e.symm)] at h
  exact h

/-- C1 counterexample.  A PUT whose body carries `status = ""` on a
`finished` job is accepted and stores the empty string as the status, a
transition that is neither in `VALID_TRANSITIONS` nor a self-loop: the
claim's closing universal statement is false as stated. -/
theorem put_empty_status_counterexample :
    (update_request (some jobFinished) { status := some "" }).2 =
      some { jobFinished with status := "" } ∧
    ("" : String) ≠ jobFinished.status ∧
    is_valid_transition jobFinished.status "" = false := by
  refine ⟨by decide, by decide, by decide⟩

/-- C1 (amended).  For a PUT on an existing job whose body carries a
non-empty status different from the current one, the update is applied
exactly when `(current, requested)` is an edge of `VALID_TRANSITIONS`, and
otherwise the response is the 400 error body carrying `current_status`,
`requested_status` and `allowed_transitions` with the stored job
unchanged; a PUT restating the current status is accepted.  Consequently
every status transition applied via PUT *to a non-empty status* lies in
`VALID_TRANSITIONS` (a PUT carrying the empty-string status bypasses
validation and stores the empty string). -/
theorem put_transition_validation (rr : RenderRequest) (body : PutBody) :
    (∀ s, body.status = some s → s ≠ "" → s ≠ rr.status →
      ((is_valid_transition rr.status s = true →
        update_request (some rr) body =
          (PutResult.ok (rr.update (putUpdateArgs body)),
           some (rr.update (putUpdateArgs body)))) ∧
       (is_valid_transition rr.status s = false →
        update_request (some rr) body =
          (PutResult.invalidTransition rr.status s
            (VALID_TRANSITIONS rr.status),
           some rr)))) ∧
    (body.status = some rr.status →
      update_request (some rr) body =
        (PutResult.ok (rr.update (putUpdateArgs body)),
         some (rr.update (putUpdateArgs body)))) ∧
    (∀ rr2, (update_request (some rr) body).2 = some rr2 →
      rr2.status ≠ rr.status → rr2.status ≠ "" →
      (VALID_TRANSITIONS rr.status).contains rr2.status = true) := by
  refine ⟨?_, ?_, ?_⟩
  · intro s hb hne hnst
    constructor
    · intro hv
      simp [update_request, hb, hv]
    · intro hv
      simp [update_request, hb, hne, hnst, hv]
  · intro hb
    simp [update_request, hb]
  · intro rr2 h2 hst hne
    cases hb : body.status with
    | none =>
      simp only [update_request, hb, Option.some.injEq] at h2
      exfalso
      apply hst
      rw [← h2]
      simp [RenderRequest.update, putUpdateArgs, hb]
    | some s =>
      by_cases hc : s ≠ "" ∧ s ≠ rr.status ∧ is_valid_transition rr.status s = false
      · simp only [update_request, hb, if_pos hc, Option.some.injEq] at h2
        exfalso
        apply hst
        rw [← h2]
      · simp only [update_request, hb, if_neg hc, Option.some.injEq] at h2
        have hs2 : rr2.status = s := by
          rw [← h2]
          simp [RenderRequest.update, putUpdateArgs, hb]
        push_neg at hc
        rw [hs2] at hst hne ⊢
        rcases Classical.em (s = "") with he | he
        · exact absurd he hne
        · rcases Classical.em (s = rr.status) with he2 | he2
          · exact absurd he2 hst
          · have := hc he he2
            apply is_valid_transition_of_ne _ _ he2
            cases hiv : is_valid_transition rr.status s
            · exact absurd hiv this
            · rfl

/-- Concrete instance: a valid transition `unassigned → ready_to_start`
is applied by PUT. -/
theorem put_transition_validation_witness :
    update_request (some jobUnassigned)
        { status := some RenderStatus.ready_to_start } =
      (PutResult.ok (jobUnassigned.update
          (putUpdateArgs { status := some RenderStatus.ready_to_start })),
       some (jobUnassigned.update
          (putUpdateArgs { status := some RenderStatus.ready_to_start }))) :=
  ((put_transition_validation jobUnassigned _).1 RenderStatus.ready_to_start
    rfl (by decide) (by decide)).1 (by decide)

/-! ### C2: terminal states -/

/-- C2 counterexample.  `POST /api/cancel/<uid>` performs no state-machine
check: on a stored job in the terminal `finished` state it stores the job
back with `status = cancelled`, so a state-changing endpoint does move a
terminal job to a different status. -/
theorem cancel_terminal_counterexample :
    jobFinished.status = RenderStatus.finished ∧
    (cancel_request (some jobFinished)).2 =
      some { jobFinished with status := RenderStatus.cancelled } ∧
    RenderStatus.cancelled ≠ RenderStatus.finished := by
  refine ⟨rfl, by decide, by decide⟩

/-- From a terminal status the transition table row is empty. -/
theorem VALID_TRANSITIONS_terminal (s : String)
    (ht : s = RenderStatus.finished ∨ s = RenderStatus.failed) :
    VALID_TRANSITIONS s = [] := by
  rcases ht with h | h <;> rw [h] <;> decide

/-- C2 (amended).  From either terminal state (`finished`, `failed`),
`PUT /api/put/<uid>` with a non-`""` requested status and
`POST /api/retry/<uid>` never change the stored job's status; but
`POST /api/cancel/<uid>` unconditionally stores the job with
`status = cancelled`, terminal states included (and a PUT carrying the
empty-string status would store `status = ""`). -/
theorem terminal_state_endpoints (rr : RenderRequest)
    (ht : rr.status = RenderStatus.finished ∨ rr.status = RenderStatus.failed) :
    (∀ body : PutBody, ∀ rr2, body.status ≠ some "" →
      (update_request (some rr) body).2 = some rr2 → rr2.status = rr.status) ∧
    retry_request (some rr) = (RetryResult.notRetryable, some rr) ∧
    cancel_request (some rr) =
      (CancelResult.ok { rr with status := RenderStatus.cancelled },
       some { rr with status := RenderStatus.cancelled }) := by
  refine ⟨?_, ?_, ?_⟩
  · intro body rr2 hne h2
    cases hb : body.status with
    | none =>
      simp only [update_request, hb, Option.some.injEq] at h2
      rw [← h2]
      simp [RenderRequest.update, putUpdateArgs, hb]
    | some s =>
      have hs : s ≠ "" := by
        intro he
        rw [hb, he] at hne
        exact hne rfl
      by_cases hss : s = rr.status
      · have hc : ¬ (s ≠ "" ∧ s ≠ rr.status ∧
            is_valid_transition rr.status s = false) := by
          intro h
          exact h.2.1 hss
        simp only [update_request, hb, if_neg hc, Option.some.injEq] at h2
        rw [← h2]
        simp [RenderRequest.update, putUpdateArgs, hb, hss]
      · have hiv : is_valid_transition rr.status s = false := by
          unfold is_valid_transition
          rw [if_neg (fun e => hss e.symm), VALID_TRANSITIONS_terminal _ ht]
          rfl
        have hc : s ≠ "" ∧ s ≠ rr.status ∧
            is_valid_transition rr.status s = false := ⟨hs, hss, hiv⟩
        simp only [update_request, hb, if_pos hc, Option.some.injEq] at h2
        rw [← h2]
  · have h1 : rr.status ≠ RenderStatus.errored := by
      rcases ht with h | h <;> rw [h] <;> decide
    have h2 : rr.status ≠ RenderStatus.cancelled := by
      rcases ht with h | h <;> rw [h] <;> decide
    simp [retry_request, h1, h2]
  · simp [cancel_request, RenderRequest.update]

/-- Concrete instance: retrying a `finished` job is rejected and the job
is stored unchanged. -/
theorem terminal_state_endpoints_witness :
    retry_request (some jobFinished) =
      (RetryResult.notRetryable, some jobFinished) :=
  (terminal_state_endpoints jobFinished (Or.inl rfl)).2.1

/-! ### C4: rejection and mutation -/

/-- C4 counterexample.  The retry-ceiling rejection is answered with the
400 max-retries error *and* stores the job with `status = failed`: this
4xx response does mutate the job. -/
theorem retry_ceiling_mutation_counterexample :
    (retry_request (some jobErroredMaxed)).1 =
      RetryResult.maxRetriesExceeded (MAX_RETRIES + 1) ∧
    (retry_request (some jobErroredMaxed)).2 =
      some { jobErroredMaxed with status := RenderStatus.failed } ∧
    ({ jobErroredMaxed with status := RenderStatus.failed } : RenderRequest)
      ≠ jobErroredMaxed := by
  refine ⟨by decide, by decide, by decide⟩

/-- C4 (amended).  Every 4xx answer of the state-changing job endpoints
(invalid transition on PUT, non-retryable status on retry, unknown uid
anywhere) leaves the stored job exactly as it was — except the
retry-ceiling 400, which stores the job with `status = failed`. -/
theorem reject_paths_frame (rr : RenderRequest) (body : PutBody) :
    ((∃ c s al, (update_request (some rr) body).1 =
        PutResult.invalidTransition c s al) →
      (update_request (some rr) body).2 = some rr) ∧
    ((retry_request (some rr)).1 = RetryResult.notRetryable →
      (retry_request (some rr)).2 = some rr) ∧
    (∀ n, (retry_request (some rr)).1 = RetryResult.maxRetriesExceeded n →
      (retry_request (some rr)).2 =
        some { rr with status := RenderStatus.failed }) ∧
    update_request none body = (PutResult.notFound, none) ∧
    cancel_request none = (CancelResult.notFound, none) ∧
    retry_request none = (RetryResult.notFound, none) := by
  refine ⟨?_, ?_, ?_, rfl, rfl, rfl⟩
  · rintro ⟨c, s, al, h⟩
    cases hb : body.status with
    | none => simp [update_request, hb] at h
    | some s2 =>
      by_cases hc : s2 ≠ "" ∧ s2 ≠ rr.status ∧
          is_valid_transition rr.status s2 = false
      · simp [update_request, hb, if_pos hc]
      · simp [update_request, hb, if_neg hc] at h
  · intro h
    by_cases hr : rr.status ≠ RenderStatus.errored ∧
        rr.status ≠ RenderStatus.cancelled
    · simp [retry_request, if_pos hr]
    · by_cases hm : intOr rr.retry_count 0 + 1 > MAX_RETRIES
      · simp [retry_request, if_neg hr, if_pos hm] at h
      · simp [retry_request, if_neg hr, if_neg hm] at h
  · intro n h
    by_cases hr : rr.status ≠ RenderStatus.errored ∧
        rr.status ≠ RenderStatus.cancelled
    · simp [retry_request, if_pos hr] at h
    · by_cases hm : intOr rr.retry_count 0 + 1 > MAX_RETRIES
      · simp [retry_request, if_neg hr, if_pos hm, RenderRequest.update]
      · simp [retry_request, if_neg hr, if_neg hm] at h

/-- Concrete instance: the 400 invalid-transition answer on a `finished`
job leaves the stored job untouched. -/
theorem reject_paths_frame_witness :
    (update_request (some jobFinished)
        { status := some RenderStatus.in_progress }).2 = some jobFinished :=
  (reject_paths_frame jobFinished
    { status := some RenderStatus.in_progress }).1
    ⟨RenderStatus.finished, RenderStatus.in_progress,
     VALID_TRANSITIONS RenderStatus.finished, by decide⟩

/-! ### C8: PUT touches only provided fields -/

/-- C8.  Whatever `PUT /api/put/<uid>` stores for an existing job, every
job field whose key is absent from (or `null` in) the request body is
unchanged: fields outside the eight the handler reads are never touched,
and each of the eight is kept whenever the body does not provide it. -/
theorem put_untouched_fields (rr : RenderRequest) (body : PutBody)
    (rr2 : RenderRequest)
    (h : (update_request (some rr) body).2 = some rr2) :
    rr2.uid = rr.uid ∧ rr2.name = rr.name ∧ rr2.owner = rr.owner ∧
    rr2.worker = rr.worker ∧ rr2.time_created = rr.time_created ∧
    rr2.priority = rr.priority ∧ rr2.category = rr.category ∧
    rr2.tags = rr.tags ∧ rr2.umap_path = rr.umap_path ∧
    rr2.useq_path = rr.useq_path ∧ rr2.uconfig_path = rr.uconfig_path ∧
    rr2.output_path = rr.output_path ∧ rr2.width = rr.width ∧
    rr2.height = rr.height ∧ rr2.frame_rate = rr.frame_rate ∧
    rr2.format = rr.format ∧ rr2.start_frame = rr.start_frame ∧
    rr2.end_frame = rr.end_frame ∧ rr2.length = rr.length ∧
    rr2.retry_count = rr.retry_count ∧
    (body.progress = none → rr2.progress = rr.progress) ∧
    (body.status = none → rr2.status = rr.status) ∧
    (body.time_estimate = none → rr2.time_estimate = rr.time_estimate) ∧
    (body.warmup_current = none → rr2.warmup_current = rr.warmup_current) ∧
    (body.warmup_total = none → rr2.warmup_total = rr.warmup_total) ∧
    (body.error_message = none → rr2.error_message = rr.error_message) ∧
    (body.started_at = none → rr2.started_at = rr.started_at) ∧
    (body.completed_at = none → rr2.completed_at = rr.completed_at) := by
  have key : rr2 = rr ∨ rr2 = rr.update (putUpdateArgs body) := by
    cases hb : body.status with
    | none =>
      right
      simp only [update_request, hb, Option.some.injEq] at h
      exact h.symm
    | some s =>
      by_cases hc : s ≠ "" ∧ s ≠ rr.status ∧
          is_valid_transition rr.status s = false
      · left
        simp only [update_request, hb, if_pos hc, Option.some.injEq] at h
        exact h.symm
      · right
        simp only [update_request, hb, if_neg hc, Option.some.injEq] at h
        exact h.symm
  rcases key with hk | hk <;> subst hk
  · exact ⟨rfl, rfl, rfl, rfl, rfl, rfl, rfl, rfl, rfl, rfl, rfl, rfl, rfl,
      rfl, rfl, rfl, rfl, rfl, rfl, rfl, fun _ => rfl, fun _ => rfl,
      fun _ => rfl, fun _ => rfl, fun _ => rfl, fun _ => rfl, fun _ => rfl,
      fun _ => rfl⟩
  · exact ⟨rfl, rfl, rfl, rfl, rfl, rfl, rfl, rfl, rfl, rfl, rfl, rfl, rfl,
      rfl, rfl, rfl, rfl, rfl, rfl, rfl,
      fun hp => by simp [RenderRequest.update, putUpdateArgs, hp],
      fun hp => by simp [RenderRequest.update, putUpdateArgs, hp],
      fun hp => by simp [RenderRequest.update, putUpdateArgs, hp],
      fun hp => by simp [RenderRequest.update, putUpdateArgs, hp],
      fun hp => by simp [RenderRequest.update, putUpdateArgs, hp],
      fun hp => by simp [RenderRequest.update, putUpdateArgs, hp],
      fun hp => by simp [RenderRequest.update, putUpdateArgs, hp],
      fun hp => by simp [RenderRequest.update, putUpdateArgs, hp]⟩

/-- Concrete instance: a body providing only `progress` leaves the status
as it was. -/
theorem put_untouched_fields_witness :
    (jobUnassigned.update (putUpdateArgs { progress := some 50 })).status =
      jobUnassigned.status :=
  (put_untouched_fields jobUnassigned { progress := some 50 }
    (jobUnassigned.update (putUpdateArgs { progress := some 50 }))
    rfl).2.2.2.2.2.2.2.2.2.2.2.2.2.2.2.2.2.2.2.2.2.1 rfl

/-! ### C7: round-robin assignment -/

/-- Concrete online idle worker `n1`. -/
def workerN1 : WorkerInfo := { name := "n1", status := "idle", online := true }

/-- Concrete online idle worker `n2`. -/
def workerN2 : WorkerInfo := { name := "n2", status := "idle", online := true }

theorem getD_mem_of_lt (l : List String) (n : Nat) (d : String)
    (h : n < l.length) : l.getD n d ∈ l := by
  rw [List.getD_eq_getElem l d h]
  exact List.getElem_mem h

/-- Whenever `round_robin_pick` selects an entry, the selection is a
member of the candidate list. -/
theorem round_robin_pick_mem (c : Option String) (avail : List String)
    (w : String) (h : (round_robin_pick c avail).1 = some w) : w ∈ avail := by
  cases avail with
  | nil => simp [round_robin_pick] at h
  | cons a t =>
    simp only [round_robin_pick, List.isEmpty_cons, Bool.false_eq_true,
      if_false] at h
    rcases c with _ | la
    · simp only [Option.some.injEq] at h
      rw [← h]
      exact getD_mem_of_lt _ _ _ (by simp)
    · by_cases hc : (a :: t).contains la
      · simp only [hc, if_true, Option.some.injEq] at h
        rw [← h]
        exact getD_mem_of_lt _ _ _ (Nat.mod_lt _ (by simp))
      · simp only [hc, Bool.false_eq_true, if_false, Option.some.injEq] at h
        rw [← h]
        exact getD_mem_of_lt _ _ _ (by simp)

/-- Whenever `get_available_worker` selects a worker, the selection comes
from the online-and-idle candidate set. -/
theorem gaw_selection_mem (c : Option String) (workers : List WorkerInfo)
    (w : String) (h : (get_available_worker c workers).1 = some w) :
    w ∈ (workers.filter (fun x => x.online ∧ x.status = "idle")).map
      (fun x => x.name) := by
  unfold get_available_worker at h
  exact round_robin_pick_mem _ _ _ h

/-- C7.  With exactly the two workers `n1`, `n2` registered, both online
and idle, three successive invocations of the assignment routine select
the workers alternately — `n1, n2, n1` or `n2, n1, n2` depending on the
initial cursor — so never the same worker three times in a row; and in
general every selection is drawn from the online-and-idle candidate set. -/
theorem round_robin_two_workers :
    (∀ c0 : Option String,
      ((get_available_worker c0 [workerN1, workerN2]).1 = some "n1" ∧
       (get_available_worker (get_available_worker c0 [workerN1, workerN2]).2
          [workerN1, workerN2]).1 = some "n2" ∧
       (get_available_worker
          (get_available_worker
            (get_available_worker c0 [workerN1, workerN2]).2
            [workerN1, workerN2]).2 [workerN1, workerN2]).1 = some "n1") ∨
      ((get_available_worker c0 [workerN1, workerN2]).1 = some "n2" ∧
       (get_available_worker (get_available_worker c0 [workerN1, workerN2]).2
          [workerN1, workerN2]).1 = some "n1" ∧
       (get_available_worker
          (get_available_worker
            (get_available_worker c0 [workerN1, workerN2]).2
            [workerN1, workerN2]).2 [workerN1, workerN2]).1 = some "n2")) ∧
    (∀ (c : Option String) (workers : List WorkerInfo) (w : String),
      (get_available_worker c workers).1 = some w →
      w ∈ (workers.filter (fun x => x.online ∧ x.status = "idle")).map
        (fun x => x.name)) := by
  constructor
  · intro c0
    rcases c0 with _ | s
    · left
      refine ⟨by decide, by decide, by decide⟩
    · by_cases h1 : s = "n1"
      · subst h1
        right
        refine ⟨by decide, by decide, by decide⟩
      · by_cases h2 : s = "n2"
        · subst h2
          left
          refine ⟨by decide, by decide, by decide⟩
        · have hav : ([workerN1, workerN2].filter
              (fun x => x.online ∧ x.status = "idle")).map
              (fun x => x.name) = ["n1", "n2"] := by decide
          have hcon : (["n1", "n2"] : List String).contains s = false := by
            simp [List.contains, h1, h2]
          have e1 : get_available_worker (some s) [workerN1, workerN2] =
              (some "n1", some "n1") := by
            unfold get_available_worker
            rw [hav]
            unfold round_robin_pick
            simp [hcon, h1, h2]
          left
          refine ⟨?_, ?_, ?_⟩ <;> rw [e1] <;> decide
  · exact fun c workers w h => gaw_selection_mem c workers w h

/-- Concrete instance: the selection made from an empty cursor with the
two workers registered belongs to the online-and-idle candidate set. -/
theorem round_robin_two_workers_witness :
    ("n1" : String) ∈ (([workerN1, workerN2].filter
      (fun x => x.online ∧ x.status = "idle")).map (fun x => x.name)) :=
  round_robin_two_workers.2 none [workerN1, workerN2] "n1" (by decide)

/-! ### C5: watchdog pass with every worker offline -/

/-- The reason `check_stuck_jobs` attaches to an `in_progress` job when no
worker is online: the elapsed-time rule can never fire, so the reason
depends only on whether the job names a worker and whether that worker is
registered. -/
def offlineReason (workers : List WorkerInfo) (rr : RenderRequest) : String :=
  if rr.worker ≠ "" then
    match workers.find? (fun w => w.name = rr.worker) with
    | none => "worker " ++ rr.worker ++ " not registered"
    | some _ => "worker " ++ rr.worker ++ " is offline"
  else "no worker assigned"

theorem jobStuckReason_all_offline (workers : List WorkerInfo)
    (elapsedOf : String → Option Int) (jobTimeout : Int) (rr : RenderRequest)
    (h : ∀ w ∈ workers, w.online = false) :
    jobStuckReason workers elapsedOf jobTimeout rr =
      some (offlineReason workers rr) := by
  unfold jobStuckReason offlineReason
  by_cases hw : rr.worker ≠ ""
  · rw [if_pos hw, if_pos hw]
    cases hf : workers.find? (fun w => w.name = rr.worker) with
    | none => rfl
    | some w =>
      have hmem := List.mem_of_find?_eq_some hf
      simp [h w hmem]
  · rw [if_neg hw, if_neg hw]

theorem gaw_all_offline (c : Option String) (workers : List WorkerInfo)
    (h : ∀ w ∈ workers, w.online = false) :
    get_available_worker c workers = (none, c) := by
  unfold get_available_worker
  have hf : workers.filter (fun w => w.online ∧ w.status = "idle") = [] := by
    rw [List.filter_eq_nil_iff]
    intro w hw
    simp [h w hw]
  rw [hf]
  rfl

theorem nrt_all_offline (workers : List WorkerInfo) (c : Option String)
    (rr : RenderRequest) (h : ∀ w ∈ workers, w.online = false)
    (hw : rr.worker = "") :
    new_request_trigger workers c rr = (rr, c) := by
  unfold new_request_trigger
  rw [if_neg (by simp [hw]), gaw_all_offline c workers h]

/-- C5.  After one `check_stuck_jobs` pass in a state where every
registered worker is offline, every job that was `in_progress` is stored
with `status = ready_to_start`, `worker = ""` and
`error_message = "Reset: <reason>"` — non-empty and starting with
`"Reset"` — while every job in any other state (and the round-robin
cursor) is completely untouched. -/
theorem check_stuck_jobs_all_offline (workers : List WorkerInfo)
    (elapsedOf : String → Option Int) (jobTimeout : Int)
    (jobs : List RenderRequest) (cursor : Option String)
    (h : ∀ w ∈ workers, w.online = false) :
    check_stuck_jobs workers elapsedOf jobTimeout jobs cursor =
      (jobs.map (fun rr =>
        if rr.status = RenderStatus.in_progress then
          { rr with
            worker := ""
            status := RenderStatus.ready_to_start
            error_message := "Reset: " ++ offlineReason workers rr }
        else rr), cursor) ∧
    (∀ rr : RenderRequest,
      "Reset: " ++ offlineReason workers rr ≠ "" ∧
      ∃ rest, "Reset: " ++ offlineReason workers rr = "Reset" ++ rest) := by
  constructor
  · induction jobs generalizing cursor with
    | nil => rfl
    | cons rr rest ih =>
      by_cases hs : rr.status = RenderStatus.in_progress
      · have hnot : ¬ rr.status ≠ RenderStatus.in_progress := by simp [hs]
        have hnrt := nrt_all_offline workers cursor
          (resetStuckJob rr (offlineReason workers rr)) h rfl
        simp only [check_stuck_jobs, if_neg hnot,
          jobStuckReason_all_offline workers elapsedOf jobTimeout rr h,
          hnrt, ih, List.map_cons, if_pos hs]
        simp [resetStuckJob, RenderRequest.update]
      · simp only [check_stuck_jobs, if_pos hs, ih cursor, List.map_cons,
          if_neg hs]
  · intro rr
    constructor
    · intro he
      have h2 := congrArg String.length he
      rw [String.length_append] at h2
      have h7 : ("Reset: " : String).length = 7 := rfl
      have h0 : ("" : String).length = 0 := rfl
      rw [h7, h0] at h2
      omega
    · refine ⟨": " ++ offlineReason workers rr, ?_⟩
      rw [← String.append_assoc]
      congr 1

/-- Concrete instance: with one offline worker registered, the pass
resets a concrete `in_progress` job and leaves a `finished` one alone. -/
theorem check_stuck_jobs_all_offline_witness :
    check_stuck_jobs [{ name := "n1", status := "idle", online := false }]
      (fun _ => none) 1800
      [{ jobErrored with status := RenderStatus.in_progress, worker := "n1" },
       jobFinished] none =
      ([{ jobErrored with
          status := RenderStatus.ready_to_start
          worker := ""
          error_message := "Reset: " ++ offlineReason
            [{ name := "n1", status := "idle", online := false }]
            { jobErrored with
              status := RenderStatus.in_progress
              worker := "n1" } },
        jobFinished], none) := by
  have h := (check_stuck_jobs_all_offline
    [{ name := "n1", status := "idle", online := false }]
    (fun _ => none) 1800
    [{ jobErrored with status := RenderStatus.in_progress, worker := "n1" },
     jobFinished] none (by intro w hw; simp at hw; rw [hw])).1
  rw [h]
  decide

/-! ### C9: the stored-job invariant -/

/-- The §8 invariant under scrutiny: the status is one of the eight
states and the retry counter does not exceed `MAX_RETRIES`. -/
def JobInvariant (rr : RenderRequest) : Prop :=
  rr.status ∈ RenderStatus.allStatuses ∧ rr.retry_count ≤ MAX_RETRIES

instance (rr : RenderRequest) : Decidable (JobInvariant rr) := by
  unfold JobInvariant
  infer_instance

/-- C9 counterexample.  `POST /api/post` performs no input validation: a
body carrying `status = "bogus"` and `retry_count = 99` is stored as is,
violating both halves of the claimed invariant. -/
theorem stored_invariant_counterexample :
    (create_request ⟨"u0000001", "host", "t0"⟩ [] none
        { status := some "bogus", retry_count := some 99 }).1.status ∉
      RenderStatus.allStatuses ∧
    MAX_RETRIES <
      (create_request ⟨"u0000001", "host", "t0"⟩ [] none
        { status := some "bogus", retry_count := some 99 }).1.retry_count := by
  refine ⟨by decide, by decide⟩

/-- Case split for the job stored by a PUT on an existing uid: it is
either the unchanged job (reject path) or the updated one. -/
theorem update_request_stored_cases (rr : RenderRequest) (body : PutBody)
    (rr2 : RenderRequest)
    (h : (update_request (some rr) body).2 = some rr2) :
    rr2 = rr ∨ rr2 = rr.update (putUpdateArgs body) := by
  cases hb : body.status with
  | none =>
    right
    simp only [update_request, hb, Option.some.injEq] at h
    exact h.symm
  | some s =>
    by_cases hc : s ≠ "" ∧ s ≠ rr.status ∧
        is_valid_transition rr.status s = false
    · left
      simp only [update_request, hb, if_pos hc, Option.some.injEq] at h
      exact h.symm
    · right
      simp only [update_request, hb, if_neg hc, Option.some.injEq] at h
      exact h.symm

theorem assign_request_invariant (rr : RenderRequest) (w : String)
    (h : JobInvariant rr) : JobInvariant (assign_request rr w) := by
  refine ⟨?_, h.2⟩
  show RenderStatus.ready_to_start ∈ RenderStatus.allStatuses
  decide

theorem nrt_invariant (workers : List WorkerInfo) (c : Option String)
    (rr : RenderRequest) (h : JobInvariant rr) :
    JobInvariant (new_request_trigger workers c rr).1 := by
  unfold new_request_trigger
  by_cases hw : rr.worker ≠ ""
  · rw [if_pos hw]
    exact h
  · rw [if_neg hw]
    cases hg : get_available_worker c workers with
    | mk sel c2 =>
      cases sel with
      | none => exact h
      | some w => exact assign_request_invariant rr w h

theorem resetStuckJob_invariant (rr : RenderRequest) (reason : String)
    (h : JobInvariant rr) : JobInvariant (resetStuckJob rr reason) := by
  refine ⟨?_, h.2⟩
  show RenderStatus.ready_to_start ∈ RenderStatus.allStatuses
  decide

theorem check_stuck_jobs_invariant (workers : List WorkerInfo)
    (elapsedOf : String → Option Int) (jobTimeout : Int)
    (jobs : List RenderRequest) (c : Option String)
    (h : ∀ rr ∈ jobs, JobInvariant rr) :
    ∀ rr2 ∈ (check_stuck_jobs workers elapsedOf jobTimeout jobs c).1,
      JobInvariant rr2 := by
  induction jobs generalizing c with
  | nil =>
    intro rr2 h2
    simp [check_stuck_jobs] at h2
  | cons rr rest ih =>
    intro rr2 h2
    have hrr := h rr (List.mem_cons_self rr rest)
    have hrest : ∀ x ∈ rest, JobInvariant x :=
      fun x hx => h x (List.mem_cons_of_mem rr hx)
    by_cases hs : rr.status ≠ RenderStatus.in_progress
    · simp only [check_stuck_jobs, if_pos hs, List.mem_cons] at h2
      rcases h2 with h2 | h2
      · rw [h2]; exact hrr
      · exact ih c hrest rr2 h2
    · simp only [check_stuck_jobs, if_neg hs] at h2
      cases hr : jobStuckReason workers elapsedOf jobTimeout rr with
      | none =>
        rw [hr] at h2
        simp only [List.mem_cons] at h2
        rcases h2 with h2 | h2
        · rw [h2]; exact hrr
        · exact ih c hrest rr2 h2
      | some reason =>
        rw [hr] at h2
        simp only [List.mem_cons] at h2
        rcases h2 with h2 | h2
        · rw [h2]
          exact nrt_invariant workers c (resetStuckJob rr reason)
            (resetStuckJob_invariant rr reason hrr)
        · exact ih _ hrest rr2 h2

/-- C9 (amended).  The server never invents an out-of-range value on its
own: update (for a body whose status, when present, is one of the eight
states), cancel, retry and the watchdog all preserve the invariant
`status ∈ the eight states ∧ retry_count ≤ MAX_RETRIES`, and creation
establishes it whenever the posted body's `status` is absent, empty or
one of the eight states and its `retry_count` is absent or within
`[0, MAX_RETRIES]`.  (Creation with an arbitrary body can store any
status string and any retry count: the claim's unconditional invariant
fails, see the counterexample.) -/
theorem stored_job_invariant_preserved :
    (∀ (env : Env) (workers : List WorkerInfo) (c : Option String)
      (d : JobDict),
      (d.status = none ∨ d.status = some "" ∨
        ∃ s, d.status = some s ∧ s ∈ RenderStatus.allStatuses) →
      (d.retry_count = none ∨
        ∃ n, d.retry_count = some n ∧ 0 ≤ n ∧ n ≤ MAX_RETRIES) →
      JobInvariant (create_request env workers c d).1) ∧
    (∀ (rr : RenderRequest) (body : PutBody) (rr2 : RenderRequest),
      JobInvariant rr →
      (body.status = none ∨
        ∃ s, body.status = some s ∧ s ∈ RenderStatus.allStatuses) →
      (update_request (some rr) body).2 = some rr2 → JobInvariant rr2) ∧
    (∀ rr rr2 : RenderRequest, JobInvariant rr →
      (cancel_request (some rr)).2 = some rr2 → JobInvariant rr2) ∧
    (∀ rr rr2 : RenderRequest, JobInvariant rr →
      (retry_request (some rr)).2 = some rr2 → JobInvariant rr2) ∧
    (∀ (workers : List WorkerInfo) (elapsedOf : String → Option Int)
      (jobTimeout : Int) (jobs : List RenderRequest) (c : Option String),
      (∀ rr ∈ jobs, JobInvariant rr) →
      ∀ rr2 ∈ (check_stuck_jobs workers elapsedOf jobTimeout jobs c).1,
        JobInvariant rr2) := by
  refine ⟨?_, ?_, ?_, ?_, check_stuck_jobs_invariant⟩
  · intro env workers c d hs hrc
    unfold create_request
    apply nrt_invariant
    constructor
    · show strOr (pyGetStr d.status "") RenderStatus.unassigned ∈
        RenderStatus.allStatuses
      rcases hs with hs | hs | ⟨s, hs, hmem⟩
      · rw [hs]; decide
      · rw [hs]; decide
      · rw [hs]
        have hne : s ≠ "" := by
          fin_cases hmem <;> decide
        show strOr (strOr s "") RenderStatus.unassigned ∈
          RenderStatus.allStatuses
        rw [strOr_empty_right, strOr]
        rw [if_neg hne]
        exact hmem
    · show pyGetInt d.retry_count 0 ≤ MAX_RETRIES
      rcases hrc with hrc | ⟨n, hrc, h0, hle⟩
      · rw [hrc]; decide
      · rw [hrc]
        show intOr n 0 ≤ MAX_RETRIES
        rw [intOr_zero_right]
        exact hle
  · intro rr body rr2 hinv hbs h2
    rcases update_request_stored_cases rr body rr2 h2 with hk | hk
    · rw [hk]; exact hinv
    · rw [hk]
      refine ⟨?_, hinv.2⟩
      show (putUpdateArgs body).status.getD rr.status ∈ RenderStatus.allStatuses
      rcases hbs with hbs | ⟨s, hbs, hmem⟩
      · show body.status.getD rr.status ∈ RenderStatus.allStatuses
        rw [hbs]
        exact hinv.1
      · show body.status.getD rr.status ∈ RenderStatus.allStatuses
        rw [hbs]
        exact hmem
  · intro rr rr2 hinv h2
    simp only [cancel_request, Option.some.injEq] at h2
    rw [← h2]
    refine ⟨?_, hinv.2⟩
    show RenderStatus.cancelled ∈ RenderStatus.allStatuses
    decide
  · intro rr rr2 hinv h2
    by_cases hr : rr.status ≠ RenderStatus.errored ∧
        rr.status ≠ RenderStatus.cancelled
    · simp only [retry_request, if_pos hr, Option.some.injEq] at h2
      rw [← h2]
      exact hinv
    · by_cases hm : intOr rr.retry_count 0 + 1 > MAX_RETRIES
      · simp only [retry_request, if_neg hr, if_pos hm,
          Option.some.injEq] at h2
        rw [← h2]
        refine ⟨?_, hinv.2⟩
        show RenderStatus.failed ∈ RenderStatus.allStatuses
        decide
      · simp only [retry_request, if_neg hr, if_neg hm,
          Option.some.injEq] at h2
        rw [← h2]
        constructor
        · show RenderStatus.ready_to_start ∈ RenderStatus.allStatuses
          decide
        · show intOr rr.retry_count 0 + 1 ≤ MAX_RETRIES
          exact not_lt.mp hm

/-- Concrete instance: a well-formed empty body creates a job satisfying
the invariant. -/
theorem stored_job_invariant_witness :
    JobInvariant (create_request ⟨"u0000001", "host", "t0"⟩ [] none {}).1 :=
  stored_job_invariant_preserved.1 ⟨"u0000001", "host", "t0"⟩ [] none {}
    (Or.inl rfl) (Or.inl rfl)

/-! ### C10: falsy values are indistinguishable from absent keys -/

/-- C10.  `from_dict` cannot distinguish a falsy provided value from an
absent key: for every input dictionary and every field, providing `0`,
`""` or `[]` yields exactly the job obtained with the key missing; in
particular `width 0` becomes 1280, `height 0` becomes 720, `frame_rate 0`
becomes 30, an empty `format` becomes `"JPG"`, an empty `status` becomes
`unassigned` and an empty `owner` becomes the local hostname. -/
theorem from_dict_falsy_collapse (env : Env) (d : JobDict) :
    RenderRequest.from_dict env { d with uid := some "" } =
      RenderRequest.from_dict env { d with uid := none } ∧
    RenderRequest.from_dict env { d with name := some "" } =
      RenderRequest.from_dict env { d with name := none } ∧
    RenderRequest.from_dict env { d with owner := some "" } =
      RenderRequest.from_dict env { d with owner := none } ∧
    RenderRequest.from_dict env { d with worker := some "" } =
      RenderRequest.from_dict env { d with worker := none } ∧
    RenderRequest.from_dict env { d with time_created := some "" } =
      RenderRequest.from_dict env { d with time_created := none } ∧
    RenderRequest.from_dict env { d with priority := some 0 } =
      RenderRequest.from_dict env { d with priority := none } ∧
    RenderRequest.from_dict env { d with category := some "" } =
      RenderRequest.from_dict env { d with category := none } ∧
    RenderRequest.from_dict env { d with tags := some [] } =
      RenderRequest.from_dict env { d with tags := none } ∧
    RenderRequest.from_dict env { d with status := some "" } =
      RenderRequest.from_dict env { d with status := none } ∧
    RenderRequest.from_dict env { d with umap_path := some "" } =
      RenderRequest.from_dict env { d with umap_path := none } ∧
    RenderRequest.from_dict env { d with useq_path := some "" } =
      RenderRequest.from_dict env { d with useq_path := none } ∧
    RenderRequest.from_dict env { d with uconfig_path := some "" } =
      RenderRequest.from_dict env { d with uconfig_path := none } ∧
    RenderRequest.from_dict env { d with output_path := some "" } =
      RenderRequest.from_dict env { d with output_path := none } ∧
    RenderRequest.from_dict env { d with width := some 0 } =
      RenderRequest.from_dict env { d with width := none } ∧
    RenderRequest.from_dict env { d with height := some 0 } =
      RenderRequest.from_dict env { d with height := none } ∧
    RenderRequest.from_dict env { d with frame_rate := some 0 } =
      RenderRequest.from_dict env { d with frame_rate := none } ∧
    RenderRequest.from_dict env { d with format := some "" } =
      RenderRequest.from_dict env { d with format := none } ∧
    RenderRequest.from_dict env { d with start_frame := some 0 } =
      RenderRequest.from_dict env { d with start_frame := none } ∧
    RenderRequest.from_dict env { d with end_frame := some 0 } =
      RenderRequest.from_dict env { d with end_frame := none } ∧
    RenderRequest.from_dict env { d with length := some 0 } =
      RenderRequest.from_dict env { d with length := none } ∧
    RenderRequest.from_dict env { d with time_estimate := some "" } =
      RenderRequest.from_dict env { d with time_estimate := none } ∧
    RenderRequest.from_dict env { d with progress := some 0 } =
      RenderRequest.from_dict env { d with progress := none } ∧
    RenderRequest.from_dict env { d with warmup_current := some 0 } =
      RenderRequest.from_dict env { d with warmup_current := none } ∧
    RenderRequest.from_dict env { d with warmup_total := some 0 } =
      RenderRequest.from_dict env { d with warmup_total := none } ∧
    RenderRequest.from_dict env { d with error_message := some "" } =
      RenderRequest.from_dict env { d with error_message := none } ∧
    RenderRequest.from_dict env { d with retry_count := some 0 } =
      RenderRequest.from_dict env { d with retry_count := none } ∧
    RenderRequest.from_dict env { d with started_at := some "" } =
      RenderRequest.from_dict env { d with started_at := none } ∧
    RenderRequest.from_dict env { d with completed_at := some "" } =
      RenderRequest.from_dict env { d with completed_at := none } ∧
    (RenderRequest.from_dict env { d with width := some 0 }).width = 1280 ∧
    (RenderRequest.from_dict env { d with height := some 0 }).height = 720 ∧
    (RenderRequest.from_dict env
      { d with frame_rate := some 0 }).frame_rate = 30 ∧
    (RenderRequest.from_dict env { d with format := some "" }).format =
      "JPG" ∧
    (RenderRequest.from_dict env { d with status := some "" }).status =
      RenderStatus.unassigned ∧
    (RenderRequest.from_dict env { d with owner := some "" }).owner =
      env.hostname :=
  ⟨rfl, rfl, rfl, rfl, rfl, rfl, rfl, rfl, rfl, rfl, rfl, rfl, rfl, rfl,
   rfl, rfl, rfl, rfl, rfl, rfl, rfl, rfl, rfl, rfl, rfl, rfl, rfl, rfl,
   rfl, rfl, rfl, rfl, rfl, rfl⟩
